import Mathlib

/-!
Shallow embedding of the VAD-TTS repository (client.py, client_silero_hindi.py,
server.py): the debounced voice-activity worker, the playback controller, the
orchestrating client loop with barge-in and reconnection, the Silero client
threshold coupling, and the server request handler.  Machine details that are
external capabilities per the design (audio codec, VAD classifier, synthesis
engine) appear as explicit function parameters or as spec-modelled encoders.
-/

namespace VadTTS

/-- Byte payload on the wire, as sent by the server and held by the client. -/
abbrev Payload := List ℕ

/-- An utterance to synthesize; content is irrelevant to the control logic. -/
abbrev Utterance := ℕ

namespace Client

/-- client.py: min_speech_frames = 3, the consecutive-speech-frame requirement. -/
def min_speech_frames : ℕ := 3

/-- client.py: silence_duration_threshold = 1.0 seconds of silence to end speech. -/
def silence_duration_threshold : ℚ := 1

/-- client.py: vad_mode = 3, the webrtcvad aggressiveness passed to the classifier. -/
def vad_mode : ℕ := 3

/-- The webrtcvad aggressiveness mode in effect for a frame classification, as a
function of the playback-active flag.  client.py constructs the classifier once
as webrtcvad.Vad(vad_mode) and calls vad.is_speech on every frame, so the mode
used in an iteration does not depend on the playback state. -/
def effectiveVadMode : Bool → ℕ := fun _ => vad_mode

/-- State of the vad_worker loop in client.py: the speech-frame counter,
the time of the last positively classified frame, and the SpeechSignal
(speech_started_event). -/
structure VadState where
  speech_frames_counter : ℕ
  last_voice_time : ℚ
  speech_started : Bool
deriving DecidableEq

/-- Initial vad_worker state: counter 0, last_voice_time set at loop start
(taken as time 0), event unset. -/
def vadInit : VadState :=
  { speech_frames_counter := 0, last_voice_time := 0, speech_started := false }

/-- One frame iteration of vad_worker (client.py lines 70-97).  Input: the
classification of the frame and the current time.  On a speech frame the
counter increments, last_voice_time is updated, and the event is set once the
counter reaches min_speech_frames.  On a non-speech frame, if the event is set
and more than silence_duration_threshold seconds passed since the last speech
frame, the event clears and the counter resets to zero; otherwise the counter
decays by one while above zero. -/
def vad_worker_step (s : VadState) (is_speech : Bool) (t : ℚ) : VadState :=
  if is_speech then
    { speech_frames_counter := s.speech_frames_counter + 1
      last_voice_time := t
      speech_started :=
        if min_speech_frames ≤ s.speech_frames_counter + 1 then true
        else s.speech_started }
  else
    if s.speech_started = true ∧
        silence_duration_threshold < t - s.last_voice_time then
      { s with speech_started := false, speech_frames_counter := 0 }
    else
      { s with speech_frames_counter := s.speech_frames_counter - 1 }

/-- Run vad_worker_step over a list of (classification, time) frames. -/
def runVad (s : VadState) : List (Bool × ℚ) → VadState
  | [] => s
  | f :: fs => runVad (vad_worker_step s f.1 f.2) fs

/-- Length of the trailing run of consecutive positive classifications. -/
def trailingSpeechRun (l : List Bool) : ℕ :=
  (l.reverse.takeWhile (fun b => b)).length

/-- Frame sequence on which the signal rises after only two consecutive
positives: speech, speech, silence, speech, speech at times 0..4. -/
def cexFrames : List (Bool × ℚ) :=
  [(true, 0), (true, 1), (false, 2), (true, 3), (true, 4)]

/-- Shared state visible to the client: the SpeechSignal set by the VAD
thread, the connection state of the websocket, the playback-active flag, and
the orchestrating state pair tts_requested and tts_audio of tts_client. -/
structure GState where
  speech : Bool
  connected : Bool
  playback_active : Bool
  tts_requested : Bool
  tts_audio : Option Payload
deriving DecidableEq

/-- start_playback (client.py lines 99-132).  The codec capability sf.read is
the decode parameter; playOk says whether the playback device call succeeds.
On decode success the flag is set true under the lock and the device starts; a
decode or device failure is caught by the except clause, which sets the flag
false.  The Bool result records whether the call raised to its caller: the
body catches every Exception, so it is false on every path. -/
def start_playback (decode : Payload → Option (List ℚ × ℕ)) (playOk : Bool)
    (wav_bytes : Payload) (s : GState) : GState × Bool :=
  match decode wav_bytes with
  | none => ({ s with playback_active := false }, false)
  | some _ =>
    if playOk then ({ s with playback_active := true }, false)
    else ({ s with playback_active := false }, false)

/-- Result of stop_playback_safely: the new state, whether the device stop
sd.stop was invoked, and whether the call raised (it cannot: the sd.stop call
is wrapped in try/except and the flag is cleared regardless). -/
structure StopResult where
  state : GState
  deviceStopCalled : Bool
  raised : Bool
deriving DecidableEq

/-- stop_playback_safely (client.py lines 134-145): under the lock, if
playback is active then stop the device (errors caught) and clear the flag;
otherwise do nothing at all. -/
def stop_playback_safely (s : GState) : StopResult :=
  if s.playback_active then
    { state := { s with playback_active := false }
      deviceStopCalled := true
      raised := false }
  else
    { state := s, deviceStopCalled := false, raised := false }

/-- Iterate stop_playback_safely n times in a row. -/
def stopIter : ℕ → GState → GState
  | 0, s => s
  | n + 1, s => stopIter n (stop_playback_safely s).state

/-- Observable events of one tick of the tts_client inner loop: whether a
synthesis request was sent (and its reply received) during the tick, and
whether start_playback was invoked during the tick. -/
structure TickEvents where
  requested : Bool
  startedPlayback : Bool
deriving DecidableEq

/-- One iteration (tick) of the inner while loop of tts_client (client.py
lines 167-203), with the SpeechSignal held at its value for this tick.
If playback is active: on speech, stop playback, reset tts_requested and
tts_audio, and immediately send a new request in the same tick; either way the
iteration then continues without reaching the later rules.  Otherwise: if
speech is set and no request is pending, send a request and hold the reply;
then, if speech is clear and audio is held and playback is inactive, hand the
payload to start_playback and unconditionally clear tts_requested and
tts_audio.  The reply parameter is what websocket.recv returns if a request is
sent this tick; decode and playOk parametrize start_playback. -/
def tts_client_tick (decode : Payload → Option (List ℚ × ℕ)) (playOk : Bool)
    (reply : Payload) (s : GState) : GState × TickEvents :=
  if s.playback_active then
    if s.speech then
      let s1 := (stop_playback_safely s).state
      let s2 := { s1 with tts_requested := false, tts_audio := none }
      if s2.speech && !s2.tts_requested then
        ({ s2 with tts_audio := some reply, tts_requested := true },
          { requested := true, startedPlayback := false })
      else
        (s2, { requested := false, startedPlayback := false })
    else
      (s, { requested := false, startedPlayback := false })
  else
    let p1 : GState × Bool :=
      if s.speech && !s.tts_requested then
        ({ s with tts_audio := some reply, tts_requested := true }, true)
      else (s, false)
    match p1.1.tts_audio with
    | some w =>
      if !p1.1.speech && !p1.1.playback_active then
        let s2 := (start_playback decode playOk w p1.1).1
        ({ s2 with tts_requested := false, tts_audio := none },
          { requested := p1.2, startedPlayback := true })
      else
        (p1.1, { requested := p1.2, startedPlayback := false })
    | none => (p1.1, { requested := p1.2, startedPlayback := false })

/-- Events of the outer reconnect loop of tts_client. -/
inductive LoopEvent
  | attempt (i : ℕ)
  | slept (seconds : ℕ)
  | exited
deriving DecidableEq

/-- client.py: reconnect_delay = 5 seconds. -/
def reconnect_delay : ℕ := 5

/-- Outer loop of tts_client (client.py lines 163-209).  Iteration i: if the
running flag is still set, open a session (attempt i); errored i = true means
the session ended with a connection error or close (including a failure to
connect), after which the loop sleeps reconnect_delay seconds and retries;
errored i = false means the inner loop exited because running became false,
and the outer while then re-checks running.  fuel bounds the number of
iterations modelled; when running is false at the loop head the loop exits. -/
def tts_client_loop (running errored : ℕ → Bool) : ℕ → ℕ → List LoopEvent
  | 0, _ => []
  | fuel + 1, i =>
    if running i then
      LoopEvent.attempt i ::
        (if errored i then
          LoopEvent.slept reconnect_delay ::
            tts_client_loop running errored fuel (i + 1)
        else
          tts_client_loop running errored fuel (i + 1))
    else
      [LoopEvent.exited]

/-- Decode capability that fails on every payload, as sf.read does on the
zero-length sentinel. -/
def decodeNone : Payload → Option (List ℚ × ℕ) := fun _ => none

/-- A state with speech detected, idle orchestration, and no playback. -/
def sIdleSpeech : GState :=
  { speech := true, connected := true, playback_active := false
    tts_requested := false, tts_audio := none }

/-- A state with playback active while speech is detected (barge-in setting). -/
def sPlayingSpeech : GState :=
  { speech := true, connected := true, playback_active := true
    tts_requested := true, tts_audio := some [1, 2, 3] }

/-- A state holding a received waveform, speech over, playback inactive. -/
def sReady : GState :=
  { speech := false, connected := true, playback_active := false
    tts_requested := true, tts_audio := some [9] }

/-- Whether any of n successive stop_playback_safely calls raised an error. -/
def stopIterRaised : ℕ → GState → Bool
  | 0, _ => false
  | n + 1, s =>
    (stop_playback_safely s).raised ||
      stopIterRaised n (stop_playback_safely s).state

/-- State after the tick in which the server answers with the empty sentinel. -/
def afterSentinel (decode : Payload → Option (List ℚ × ℕ)) (playOk : Bool)
    (s : GState) : GState :=
  (tts_client_tick decode playOk [] s).1

/-- Tick taken after speech has ended while the sentinel is still held: the
orchestrating loop hands the sentinel to start_playback and clears its state. -/
def afterFlush (decode : Payload → Option (List ℚ × ℕ)) (playOk : Bool)
    (reply : Payload) (s : GState) : GState × TickEvents :=
  tts_client_tick decode playOk reply
    { afterSentinel decode playOk s with speech := false }

/-- Frame sequence with a clean rise: three consecutive speech frames, then a
late silence frame. -/
def wFrames : List (Bool × ℚ) :=
  [(true, 0), (true, 1), (true, 2), (false, 4)]

/-- Running flag that never clears. -/
def alwaysTrue : ℕ → Bool := fun _ => true

/-- Running flag cleared after the first outer-loop iteration. -/
def stopAfterOne : ℕ → Bool := fun j => decide (j = 0)

end Client

namespace Silero

/-- client_silero_hindi.py: samples per VAD window, 16000 times 0.3 seconds. -/
def required_samples : ℕ := 4800

/-- client_silero_hindi.py: samples kept between windows, 16000 times 0.05. -/
def overlap_samples : ℕ := 800

/-- Threshold selected each window (client_silero_hindi.py lines 92-97):
0.85, less sensitive, during playback; 0.5, more sensitive, otherwise. -/
def effective_threshold (playbackActive : Bool) : ℚ :=
  if playbackActive then 0.85 else 0.5

/-- State of the Silero vad_worker: the sample buffer, the SpeechSignal, and
the playback-active flag it reads (owned by the playback controller). -/
structure WorkerState where
  buffer : List Int
  speech : Bool
  playback_active : Bool
deriving DecidableEq

/-- One iteration of the Silero vad_worker (client_silero_hindi.py lines
80-118).  The incoming frame is appended to the buffer; once the buffer holds
required_samples, the threshold is chosen from the playback flag, the
classifier capability runs on the buffer, the SpeechSignal is set or cleared
by the result, and only the last overlap_samples samples are kept.  The second
component reports the threshold used, none while still buffering. -/
def vad_worker_iter (classify : ℚ → List Int → Bool) (frame : List Int)
    (s : WorkerState) : WorkerState × Option ℚ :=
  let buf := s.buffer ++ frame
  if required_samples ≤ buf.length then
    let thr := effective_threshold s.playback_active
    let sp := classify thr buf
    ({ s with buffer := buf.drop (buf.length - overlap_samples), speech := sp },
      some thr)
  else
    ({ s with buffer := buf }, none)

/-- Classifier capability that reports speech on every window. -/
def classifyAlways : ℚ → List Int → Bool := fun _ _ => true

/-- Worker state with an empty buffer while playback is active. -/
def wPlaying : WorkerState :=
  { buffer := [], speech := false, playback_active := true }

/-- A full-window frame of required_samples zero samples. -/
def fullFrame : List Int := List.replicate required_samples 0

end Silero

namespace Server

/-- server.py: the wire sample rate passed to sf.write, 24000. -/
def wire_sample_rate : ℕ := 24000

/-- Modelled from the spec: the audio-codec capability (sf.write is not part
of this repository).  The payload is a self-describing WAV byte stream with a
header, modelled as a RIFF marker followed by the sample count, the sample
rate and the quantized samples. -/
def wavHeader (nSamples sampleRate : ℕ) : List ℕ :=
  [82, 73, 70, 70] ++
    [nSamples % 256, nSamples / 256 % 256,
      sampleRate % 256, sampleRate / 256 % 256]

/-- Modelled from the spec: encode a waveform to a byte payload, a WAV byte
stream with header. -/
def encodeWav (samples : List Int) (sampleRate : ℕ) : List ℕ :=
  wavHeader samples.length sampleRate ++ samples.map (fun x => x.natAbs % 256)

/-- Reply of tts_handler to one inbound message (server.py lines 14-36).  The
synthesis capability yields the chunk sequence, or none when the engine
raises.  A successful synthesis is concatenated and encoded; any failure,
including np.concatenate raising on an empty chunk list, is caught and
answered with the zero-length sentinel. -/
def handle_message (synth : Utterance → Option (List (List Int)))
    (msg : Utterance) : Payload :=
  match synth msg with
  | none => []
  | some [] => []
  | some (c :: cs) => encodeWav ((c :: cs).flatten) wire_sample_rate

/-- tts_handler over the sequence of inbound messages on one connection
(server.py lines 11-40): the async for loop handles the messages in order,
sending exactly one reply per message before reading the next. -/
def tts_handler (synth : Utterance → Option (List (List Int)))
    (msgs : List Utterance) : List Payload :=
  msgs.map (handle_message synth)

/-- Synthesis capability that raises on every utterance. -/
def synthFail : Utterance → Option (List (List Int)) := fun _ => none

end Server

/-! ## Helper lemmas about the vad_worker state machine -/

theorem vad_step_true (s : Client.VadState) (t : ℚ) :
    Client.vad_worker_step s true t =
      { speech_frames_counter := s.speech_frames_counter + 1
        last_voice_time := t
        speech_started :=
          if Client.min_speech_frames ≤ s.speech_frames_counter + 1 then true
          else s.speech_started } := rfl

theorem vad_step_false (s : Client.VadState) (t : ℚ) :
    Client.vad_worker_step s false t =
      if s.speech_started = true ∧
          Client.silence_duration_threshold < t - s.last_voice_time then
        { s with speech_started := false, speech_frames_counter := 0 }
      else
        { s with
            speech_frames_counter := s.speech_frames_counter - 1 } := rfl

theorem vad_step_lastVoice (s : Client.VadState) (b : Bool) (t : ℚ) :
    (Client.vad_worker_step s b t).last_voice_time =
      if b then t else s.last_voice_time := by
  cases b with
  | true => rfl
  | false => rw [vad_step_false]; split <;> rfl

theorem vad_rise_step (s : Client.VadState) (b : Bool) (t : ℚ)
    (h0 : s.speech_started = false)
    (h1 : (Client.vad_worker_step s b t).speech_started = true) :
    b = true ∧ Client.min_speech_frames ≤ s.speech_frames_counter + 1 := by
  cases b with
  | false =>
    exfalso
    rw [vad_step_false] at h1
    revert h1
    split
    · intro h1; exact Bool.false_ne_true h1
    · intro h1; rw [h0] at h1; exact Bool.false_ne_true h1
  | true =>
    refine ⟨rfl, ?_⟩
    by_contra hlt
    rw [vad_step_true] at h1
    simp only [if_neg hlt] at h1
    rw [h0] at h1
    exact Bool.false_ne_true h1

theorem vad_fall_step (s : Client.VadState) (b : Bool) (t : ℚ)
    (h0 : s.speech_started = true)
    (h1 : (Client.vad_worker_step s b t).speech_started = false) :
    b = false ∧
      Client.silence_duration_threshold < t - s.last_voice_time := by
  cases b with
  | true =>
    exfalso
    rw [vad_step_true] at h1
    revert h1
    split
    · intro h1; exact Bool.false_ne_true h1.symm
    · intro h1; rw [h0] at h1; exact Bool.false_ne_true h1.symm
  | false =>
    refine ⟨rfl, ?_⟩
    rw [vad_step_false] at h1
    revert h1
    split
    · next hcond => intro _; exact hcond.2
    · intro h1; rw [h0] at h1; exact absurd h1.symm Bool.false_ne_true

theorem vad_decay_step (s : Client.VadState) (t : ℚ)
    (h1 : (Client.vad_worker_step s false t).speech_started = s.speech_started) :
    (Client.vad_worker_step s false t).speech_frames_counter =
      s.speech_frames_counter - 1 := by
  rw [vad_step_false] at h1 ⊢
  revert h1
  split
  · next hcond => intro h1; rw [hcond.1] at h1; exact absurd h1 Bool.false_ne_true
  · intro _; rfl

theorem runVad_append (l1 l2 : List (Bool × ℚ)) (s : Client.VadState) :
    Client.runVad s (l1 ++ l2) = Client.runVad (Client.runVad s l1) l2 := by
  induction l1 generalizing s with
  | nil => rfl
  | cons f fs ih => simp [Client.runVad, ih]

theorem runVad_take_succ (fs : List (Bool × ℚ)) (i : ℕ) (hi : i < fs.length)
    (s : Client.VadState) :
    Client.runVad s (fs.take (i + 1)) =
      Client.vad_worker_step (Client.runVad s (fs.take i))
        (fs.get ⟨i, hi⟩).1 (fs.get ⟨i, hi⟩).2 := by
  rw [List.take_succ, List.getElem?_eq_getElem hi, runVad_append]
  simp [Client.runVad, List.get_eq_getElem]

theorem runVad_lastVoice_mono (l : List (Bool × ℚ)) :
    ∀ s : Client.VadState, l.Pairwise (fun a b => a.2 ≤ b.2) →
      (∀ p ∈ l, s.last_voice_time ≤ p.2) →
      s.last_voice_time ≤ (Client.runVad s l).last_voice_time := by
  induction l with
  | nil => intro s _ _; exact le_refl _
  | cons f fs ih =>
    intro s hsort hlb
    obtain ⟨hhead, htail⟩ := List.pairwise_cons.mp hsort
    have hrun : Client.runVad s (f :: fs) =
        Client.runVad (Client.vad_worker_step s f.1 f.2) fs := rfl
    rw [hrun]
    by_cases hf : f.1 = true
    · have hlv : (Client.vad_worker_step s f.1 f.2).last_voice_time = f.2 := by
        rw [vad_step_lastVoice]; simp [hf]
      have hlb1 : ∀ p ∈ fs,
          (Client.vad_worker_step s f.1 f.2).last_voice_time ≤ p.2 := by
        intro p hp; rw [hlv]; exact hhead p hp
      have h1 : s.last_voice_time ≤
          (Client.vad_worker_step s f.1 f.2).last_voice_time := by
        rw [hlv]; exact hlb f (List.mem_cons_self f fs)
      exact le_trans h1 (ih _ htail hlb1)
    · have hf2 : f.1 = false := by simpa using hf
      have hlv : (Client.vad_worker_step s f.1 f.2).last_voice_time =
          s.last_voice_time := by
        rw [vad_step_lastVoice]; simp [hf2]
      have hlb1 : ∀ p ∈ fs,
          (Client.vad_worker_step s f.1 f.2).last_voice_time ≤ p.2 := by
        intro p hp; rw [hlv]; exact hlb p (List.mem_cons_of_mem f hp)
      have h2 := ih _ htail hlb1
      rw [hlv] at h2
      exact h2

theorem runVad_lastVoice_ge (l : List (Bool × ℚ)) :
    ∀ s : Client.VadState, l.Pairwise (fun a b => a.2 ≤ b.2) →
      (∀ p ∈ l, s.last_voice_time ≤ p.2) →
      ∀ p ∈ l, p.1 = true → p.2 ≤ (Client.runVad s l).last_voice_time := by
  induction l with
  | nil => intro s _ _ p hp; exact absurd hp (List.not_mem_nil p)
  | cons f fs ih =>
    intro s hsort hlb p hp hspeech
    obtain ⟨hhead, htail⟩ := List.pairwise_cons.mp hsort
    have hrun : Client.runVad s (f :: fs) =
        Client.runVad (Client.vad_worker_step s f.1 f.2) fs := rfl
    have hlb1 : ∀ q ∈ fs,
        (Client.vad_worker_step s f.1 f.2).last_voice_time ≤ q.2 := by
      intro q hq
      rw [vad_step_lastVoice]
      by_cases hf : f.1 = true
      · simp only [hf, if_true]
        exact hhead q hq
      · have hf2 : f.1 = false := by simpa using hf
        simp only [hf2, Bool.false_eq_true, if_false]
        exact hlb q (List.mem_cons_of_mem f hq)
    rw [hrun]
    rcases List.mem_cons.mp hp with rfl | hmem
    · have hlv2 : (Client.vad_worker_step s p.1 p.2).last_voice_time = p.2 := by
        rw [vad_step_lastVoice]; simp [hspeech]
      calc p.2 = (Client.vad_worker_step s p.1 p.2).last_voice_time := hlv2.symm
        _ ≤ _ := runVad_lastVoice_mono fs _ htail hlb1
    · exact ih _ htail hlb1 p hmem hspeech

/-! ## Claim C2: debounce semantics of the webrtcvad worker -/

/-- Claim C2 (amended): over any frame sequence with non-negative,
non-decreasing times, the SpeechSignal of the webrtcvad worker rises only on a
positively classified frame that brings the speech-frame counter to at least
min_speech_frames (the counter increments on speech frames and decays by one
on non-speech frames, it does not reset, so the rise need not follow
min_speech_frames consecutive positives); it falls only on a non-speech frame
observed strictly more than silence_duration_threshold seconds after every
earlier positively classified frame, that is, after continuous non-speech for
more than the threshold; and a non-speech frame that leaves the signal
unchanged decays the counter by exactly one. -/
theorem debounce_counter_semantics (fs : List (Bool × ℚ)) (i : ℕ)
    (hi : i < fs.length)
    (hsorted : fs.Pairwise (fun a b => a.2 ≤ b.2))
    (hpos : ∀ p ∈ fs, 0 ≤ p.2) :
    ((Client.runVad Client.vadInit (fs.take i)).speech_started = false →
      (Client.runVad Client.vadInit (fs.take (i + 1))).speech_started = true →
      (fs.get ⟨i, hi⟩).1 = true ∧
        Client.min_speech_frames ≤
          (Client.runVad Client.vadInit (fs.take i)).speech_frames_counter
            + 1) ∧
    ((Client.runVad Client.vadInit (fs.take i)).speech_started = true →
      (Client.runVad Client.vadInit (fs.take (i + 1))).speech_started = false →
      (fs.get ⟨i, hi⟩).1 = false ∧
        Client.silence_duration_threshold <
          (fs.get ⟨i, hi⟩).2 -
            (Client.runVad Client.vadInit (fs.take i)).last_voice_time ∧
        ∀ j (hj : j < fs.length), j < i → (fs.get ⟨j, hj⟩).1 = true →
          Client.silence_duration_threshold <
            (fs.get ⟨i, hi⟩).2 - (fs.get ⟨j, hj⟩).2) ∧
    ((fs.get ⟨i, hi⟩).1 = false →
      (Client.runVad Client.vadInit (fs.take (i + 1))).speech_started =
        (Client.runVad Client.vadInit (fs.take i)).speech_started →
      (Client.runVad Client.vadInit (fs.take (i + 1))).speech_frames_counter =
        (Client.runVad Client.vadInit (fs.take i)).speech_frames_counter
          - 1) := by
  have hstep := runVad_take_succ fs i hi Client.vadInit
  refine ⟨?_, ?_, ?_⟩
  · intro h0 h1
    rw [hstep] at h1
    exact vad_rise_step _ _ _ h0 h1
  · intro h0 h1
    rw [hstep] at h1
    obtain ⟨hb, hlt⟩ := vad_fall_step _ _ _ h0 h1
    refine ⟨hb, hlt, ?_⟩
    intro j hj hji hsp
    have hsubset : ∀ p ∈ fs.take i, p ∈ fs :=
      fun p hp => List.take_subset i fs hp
    have hlb : ∀ p ∈ fs.take i, Client.vadInit.last_voice_time ≤ p.2 := by
      intro p hp
      have hp0 : (0 : ℚ) ≤ p.2 := hpos p (hsubset p hp)
      simpa [Client.vadInit] using hp0
    have hsort2 : (fs.take i).Pairwise (fun a b => a.2 ≤ b.2) :=
      List.Pairwise.sublist (List.take_sublist i fs) hsorted
    have hj2 : j < (fs.take i).length := by
      rw [List.length_take]
      exact lt_min hji hj
    have hget : (fs.take i).get ⟨j, hj2⟩ = fs.get ⟨j, hj⟩ := by
      simp [List.get_eq_getElem, List.getElem_take]
    have hmem : fs.get ⟨j, hj⟩ ∈ fs.take i := by
      rw [← hget]
      exact List.get_mem _ _ _
    have hge := runVad_lastVoice_ge (fs.take i) Client.vadInit hsort2 hlb
      (fs.get ⟨j, hj⟩) hmem hsp
    linarith
  · intro hb h1
    rw [hstep] at h1 ⊢
    rw [hb] at h1 ⊢
    exact vad_decay_step _ _ h1

/-- Claim C2 counterexample: on the concrete sequence speech, speech, silence,
speech, speech the SpeechSignal transitions false to true at the fifth frame,
although only the last two classifications are positive and
min_speech_frames = 3: because the counter decays by one instead of resetting,
the rise does not require min_speech_frames consecutive positive
classifications, refuting the claim as stated. -/
theorem debounce_consecutive_claim_fails :
    (Client.runVad Client.vadInit (Client.cexFrames.take 4)).speech_started
        = false ∧
    (Client.runVad Client.vadInit Client.cexFrames).speech_started = true ∧
    Client.trailingSpeechRun (Client.cexFrames.map Prod.fst) = 2 ∧
    2 < Client.min_speech_frames := by
  refine ⟨?_, ?_, ?_, ?_⟩ <;> decide

/-- Witness for debounce_counter_semantics at a concrete rising sequence. -/
theorem debounce_counter_semantics_witness :
    (Client.wFrames.get ⟨2, by decide⟩).1 = true ∧
    Client.min_speech_frames ≤
      (Client.runVad Client.vadInit
        (Client.wFrames.take 2)).speech_frames_counter + 1 :=
  (debounce_counter_semantics Client.wFrames 2 (by decide) (by decide)
    (by decide)).1 (by decide) (by decide)

/-! ## Helper lemmas about one tick of the tts_client loop -/

theorem tick_barge_in (decode : Payload → Option (List ℚ × ℕ)) (playOk : Bool)
    (reply : Payload) (s : Client.GState)
    (hp : s.playback_active = true) (hs : s.speech = true) :
    Client.tts_client_tick decode playOk reply s =
      ({ s with
          playback_active := false
          tts_audio := some reply
          tts_requested := true },
        { requested := true, startedPlayback := false }) := by
  simp [Client.tts_client_tick, Client.stop_playback_safely, hp, hs]

theorem tick_request (decode : Payload → Option (List ℚ × ℕ)) (playOk : Bool)
    (reply : Payload) (s : Client.GState)
    (hp : s.playback_active = false) (hs : s.speech = true)
    (hr : s.tts_requested = false) :
    Client.tts_client_tick decode playOk reply s =
      ({ s with tts_audio := some reply, tts_requested := true },
        { requested := true, startedPlayback := false }) := by
  simp [Client.tts_client_tick, hp, hs, hr]

theorem tick_flush (decode : Payload → Option (List ℚ × ℕ)) (playOk : Bool)
    (reply : Payload) (w : Payload) (s : Client.GState)
    (hp : s.playback_active = false) (hs : s.speech = false)
    (ha : s.tts_audio = some w) :
    Client.tts_client_tick decode playOk reply s =
      ({ (Client.start_playback decode playOk w s).1 with
          tts_requested := false, tts_audio := none },
        { requested := false, startedPlayback := true }) := by
  simp [Client.tts_client_tick, hp, hs, ha]

theorem start_playback_never_raises (decode : Payload → Option (List ℚ × ℕ))
    (playOk : Bool) (w : Payload) (s : Client.GState) :
    (Client.start_playback decode playOk w s).2 = false := by
  rcases hd : decode w with _ | v
  · simp [Client.start_playback, hd]
  · cases playOk <;> simp [Client.start_playback, hd]

theorem start_playback_frame (decode : Payload → Option (List ℚ × ℕ))
    (playOk : Bool) (w : Payload) (s : Client.GState) :
    (Client.start_playback decode playOk w s).1.speech = s.speech ∧
    (Client.start_playback decode playOk w s).1.connected = s.connected ∧
    (Client.start_playback decode playOk w s).1.tts_requested
      = s.tts_requested ∧
    (Client.start_playback decode playOk w s).1.tts_audio = s.tts_audio := by
  rcases hd : decode w with _ | v
  · simp [Client.start_playback, hd]
  · cases playOk <;> simp [Client.start_playback, hd]

/-! ## Claim C1: barge-in within one tick -/

/-- Claim C1: in a tick that starts with playback active and the SpeechSignal
set, the loop stops playback (playback_active is false afterwards), resets the
request state and issues a new synthesis request within that same tick (the
tick reports a request, and ends holding the fresh reply with the request flag
set), and no playback is started during the tick. -/
theorem barge_in_same_tick (decode : Payload → Option (List ℚ × ℕ))
    (playOk : Bool) (reply : Payload) (s : Client.GState)
    (hp : s.playback_active = true) (hs : s.speech = true) :
    (Client.tts_client_tick decode playOk reply s).1.playback_active = false ∧
    (Client.tts_client_tick decode playOk reply s).2.requested = true ∧
    (Client.tts_client_tick decode playOk reply s).2.startedPlayback = false ∧
    (Client.tts_client_tick decode playOk reply s).1.tts_requested = true ∧
    (Client.tts_client_tick decode playOk reply s).1.tts_audio = some reply := by
  rw [tick_barge_in decode playOk reply s hp hs]
  exact ⟨rfl, rfl, rfl, rfl, rfl⟩

/-- Witness for barge_in_same_tick at a concrete playing-and-speaking state. -/
theorem barge_in_same_tick_witness :
    (Client.tts_client_tick Client.decodeNone true [7]
      Client.sPlayingSpeech).1.playback_active = false ∧
    (Client.tts_client_tick Client.decodeNone true [7]
      Client.sPlayingSpeech).2.requested = true ∧
    (Client.tts_client_tick Client.decodeNone true [7]
      Client.sPlayingSpeech).2.startedPlayback = false ∧
    (Client.tts_client_tick Client.decodeNone true [7]
      Client.sPlayingSpeech).1.tts_requested = true ∧
    (Client.tts_client_tick Client.decodeNone true [7]
      Client.sPlayingSpeech).1.tts_audio = some [7] :=
  barge_in_same_tick Client.decodeNone true [7] Client.sPlayingSpeech rfl rfl

/-! ## Claim C3: handling of the empty-payload failure sentinel -/

/-- Claim C3 counterexample: in the tick in which the client receives the
empty-payload sentinel as the reply, its state does not reset to Idle: the
request flag is set and the zero-length payload is held as tts_audio (the
source keeps the reply because an empty byte string is not None), refuting the
claim that receipt of the sentinel resets the state to Idle with no held audio
and no pending request. -/
theorem sentinel_not_idle_on_receipt :
    (Client.tts_client_tick Client.decodeNone true []
      Client.sIdleSpeech).1.tts_requested = true ∧
    (Client.tts_client_tick Client.decodeNone true []
      Client.sIdleSpeech).1.tts_audio = some [] :=
  ⟨rfl, rfl⟩

/-- Claim C3 (amended): on receiving the empty sentinel the client holds it as
tts_audio with tts_requested set; once speech ends, the next tick passes the
sentinel to start_playback, whose decode fails so playback stays inactive, and
then unconditionally clears tts_requested and tts_audio, returning the state
to Idle; a subsequent speech trigger then issues a fresh request. -/
theorem sentinel_flushed_then_fresh_request
    (decode : Payload → Option (List ℚ × ℕ)) (playOk : Bool)
    (r2 r3 : Payload) (s : Client.GState)
    (hp : s.playback_active = false) (hs : s.speech = true)
    (hr : s.tts_requested = false) (hd : decode [] = none) :
    (Client.afterSentinel decode playOk s).tts_audio = some [] ∧
    (Client.afterSentinel decode playOk s).tts_requested = true ∧
    (Client.afterFlush decode playOk r2 s).2.startedPlayback = true ∧
    (Client.afterFlush decode playOk r2 s).1.playback_active = false ∧
    (Client.afterFlush decode playOk r2 s).1.tts_requested = false ∧
    (Client.afterFlush decode playOk r2 s).1.tts_audio = none ∧
    (Client.tts_client_tick decode playOk r3
      { (Client.afterFlush decode playOk r2 s).1 with
          speech := true }).2.requested = true ∧
    (Client.tts_client_tick decode playOk r3
      { (Client.afterFlush decode playOk r2 s).1 with
          speech := true }).1.tts_audio = some r3 := by
  have hA : Client.afterSentinel decode playOk s =
      { s with tts_audio := some [], tts_requested := true } := by
    unfold Client.afterSentinel
    rw [tick_request decode playOk [] s hp hs hr]
  have hF : Client.afterFlush decode playOk r2 s =
      ({ s with
          speech := false
          playback_active := false
          tts_requested := false
          tts_audio := none },
        { requested := false, startedPlayback := true }) := by
    unfold Client.afterFlush
    rw [hA]
    rw [tick_flush decode playOk r2 [] _ (by simpa using hp) rfl rfl]
    simp [Client.start_playback, hd]
  have hs3 : ({ (Client.afterFlush decode playOk r2 s).1 with
      speech := true } : Client.GState) =
      { s with
          speech := true
          playback_active := false
          tts_requested := false
          tts_audio := none } := by
    rw [hF]
  refine ⟨by rw [hA], by rw [hA], by rw [hF], by rw [hF], by rw [hF],
    by rw [hF], ?_, ?_⟩
  · rw [hs3, tick_request decode playOk r3 _ rfl rfl rfl]
  · rw [hs3, tick_request decode playOk r3 _ rfl rfl rfl]

/-- Witness for sentinel_flushed_then_fresh_request at the concrete
idle-and-speaking state with the always-failing decoder. -/
theorem sentinel_flushed_then_fresh_request_witness :
    (Client.afterSentinel Client.decodeNone true
      Client.sIdleSpeech).tts_audio = some [] ∧
    (Client.afterSentinel Client.decodeNone true
      Client.sIdleSpeech).tts_requested = true ∧
    (Client.afterFlush Client.decodeNone true []
      Client.sIdleSpeech).2.startedPlayback = true ∧
    (Client.afterFlush Client.decodeNone true []
      Client.sIdleSpeech).1.playback_active = false ∧
    (Client.afterFlush Client.decodeNone true []
      Client.sIdleSpeech).1.tts_requested = false ∧
    (Client.afterFlush Client.decodeNone true []
      Client.sIdleSpeech).1.tts_audio = none ∧
    (Client.tts_client_tick Client.decodeNone true [4]
      { (Client.afterFlush Client.decodeNone true []
          Client.sIdleSpeech).1 with speech := true }).2.requested = true ∧
    (Client.tts_client_tick Client.decodeNone true [4]
      { (Client.afterFlush Client.decodeNone true []
          Client.sIdleSpeech).1 with speech := true }).1.tts_audio = some [4] :=
  sentinel_flushed_then_fresh_request Client.decodeNone true [] [4]
    Client.sIdleSpeech rfl rfl rfl rfl

/-! ## Claim C9: playback failure is frame-local -/

/-- Claim C9: when the decode of the payload fails or the playback device
fails to start inside start_playback, the session is aborted with
playback_active left false, the call does not raise, and no other shared state
changes: the SpeechSignal, the connection state and the orchestration fields
are untouched. -/
theorem playback_failure_frame (decode : Payload → Option (List ℚ × ℕ))
    (playOk : Bool) (wav : Payload) (s : Client.GState)
    (h : decode wav = none ∨ playOk = false) :
    (Client.start_playback decode playOk wav s).1.playback_active = false ∧
    (Client.start_playback decode playOk wav s).1.speech = s.speech ∧
    (Client.start_playback decode playOk wav s).1.connected = s.connected ∧
    (Client.start_playback decode playOk wav s).1.tts_requested
      = s.tts_requested ∧
    (Client.start_playback decode playOk wav s).1.tts_audio = s.tts_audio ∧
    (Client.start_playback decode playOk wav s).2 = false := by
  rcases h with hd | hpk
  · simp [Client.start_playback, hd]
  · rcases hd2 : decode wav with _ | v
    · simp [Client.start_playback, hd2]
    · simp [Client.start_playback, hd2, hpk]

/-- Witness for playback_failure_frame with the always-failing decoder. -/
theorem playback_failure_frame_witness :
    (Client.start_playback Client.decodeNone true [0]
      Client.sIdleSpeech).1.playback_active = false ∧
    (Client.start_playback Client.decodeNone true [0]
      Client.sIdleSpeech).1.speech = Client.sIdleSpeech.speech ∧
    (Client.start_playback Client.decodeNone true [0]
      Client.sIdleSpeech).1.connected = Client.sIdleSpeech.connected ∧
    (Client.start_playback Client.decodeNone true [0]
      Client.sIdleSpeech).1.tts_requested = Client.sIdleSpeech.tts_requested ∧
    (Client.start_playback Client.decodeNone true [0]
      Client.sIdleSpeech).1.tts_audio = Client.sIdleSpeech.tts_audio ∧
    (Client.start_playback Client.decodeNone true [0]
      Client.sIdleSpeech).2 = false :=
  playback_failure_frame Client.decodeNone true [0] Client.sIdleSpeech
    (Or.inl rfl)

/-! ## Claim C10: a waveform whose playback failed is discarded -/

/-- Claim C10: when the start-playback branch runs (speech clear, audio held,
playback inactive), start_playback returns without raising whatever the
decode outcome, the tick invokes playback exactly there, and the loop then
unconditionally clears tts_requested and tts_audio, so the payload is
discarded and never retried; if the payload cannot be decoded the tick also
ends with playback inactive. -/
theorem failed_playback_discarded (decode : Payload → Option (List ℚ × ℕ))
    (playOk : Bool) (reply w : Payload) (s : Client.GState)
    (hp : s.playback_active = false) (hs : s.speech = false)
    (ha : s.tts_audio = some w) :
    (Client.start_playback decode playOk w s).2 = false ∧
    (Client.tts_client_tick decode playOk reply s).1.tts_requested = false ∧
    (Client.tts_client_tick decode playOk reply s).1.tts_audio = none ∧
    (Client.tts_client_tick decode playOk reply s).2.startedPlayback = true ∧
    (decode w = none →
      (Client.tts_client_tick decode playOk reply s).1.playback_active
        = false) := by
  rw [tick_flush decode playOk reply w s hp hs ha]
  refine ⟨start_playback_never_raises decode playOk w s, rfl, rfl, rfl, ?_⟩
  intro hd
  simp [Client.start_playback, hd]

/-- Witness for failed_playback_discarded at the concrete held-audio state. -/
theorem failed_playback_discarded_witness :
    (Client.start_playback Client.decodeNone true [9] Client.sReady).2
        = false ∧
    (Client.tts_client_tick Client.decodeNone true [5]
      Client.sReady).1.tts_requested = false ∧
    (Client.tts_client_tick Client.decodeNone true [5]
      Client.sReady).1.tts_audio = none ∧
    (Client.tts_client_tick Client.decodeNone true [5]
      Client.sReady).2.startedPlayback = true ∧
    (Client.tts_client_tick Client.decodeNone true [5]
      Client.sReady).1.playback_active = false := by
  have h := failed_playback_discarded Client.decodeNone true [5] [9]
    Client.sReady rfl rfl rfl
  exact ⟨h.1, h.2.1, h.2.2.1, h.2.2.2.1, h.2.2.2.2 rfl⟩

/-! ## Claim C8: stop is idempotent -/

theorem stop_state_inactive (s : Client.GState) :
    (Client.stop_playback_safely s).state.playback_active = false := by
  unfold Client.stop_playback_safely
  split
  · rfl
  · next h => simpa using h

theorem stop_raised_false (s : Client.GState) :
    (Client.stop_playback_safely s).raised = false := by
  unfold Client.stop_playback_safely
  split <;> rfl

theorem stopIter_inactive (n : ℕ) :
    ∀ s : Client.GState, s.playback_active = false →
      (Client.stopIter n s).playback_active = false := by
  induction n with
  | zero => intro s h; exact h
  | succ n ih => intro s h; exact ih _ (stop_state_inactive s)

theorem stopIterRaised_false (n : ℕ) :
    ∀ s : Client.GState, Client.stopIterRaised n s = false := by
  induction n with
  | zero => intro s; rfl
  | succ n ih => intro s; simp [Client.stopIterRaised, stop_raised_false, ih]

/-- Claim C8: calling stop any positive number of times in a row, from any
state, leaves the playback-active flag false, none of the calls raises, and
when nothing is playing the call performs no playback-device action. -/
theorem stop_idempotent (s : Client.GState) (n : ℕ) (hn : 0 < n) :
    (Client.stopIter n s).playback_active = false ∧
    Client.stopIterRaised n s = false ∧
    (s.playback_active = false →
      (Client.stop_playback_safely s).deviceStopCalled = false) := by
  refine ⟨?_, stopIterRaised_false n s, ?_⟩
  · obtain ⟨m, rfl⟩ := Nat.exists_eq_succ_of_ne_zero (Nat.pos_iff_ne_zero.mp hn)
    exact stopIter_inactive m _ (stop_state_inactive s)
  · intro h
    simp [Client.stop_playback_safely, h]

/-- Witness for stop_idempotent: two stops from a playing state, and one stop
from an inactive state. -/
theorem stop_idempotent_witness :
    (Client.stopIter 2 Client.sPlayingSpeech).playback_active = false ∧
    Client.stopIterRaised 2 Client.sPlayingSpeech = false ∧
    (Client.stop_playback_safely Client.sReady).deviceStopCalled = false :=
  ⟨(stop_idempotent Client.sPlayingSpeech 2 (by decide)).1,
   (stop_idempotent Client.sPlayingSpeech 2 (by decide)).2.1,
   (stop_idempotent Client.sReady 1 (by decide)).2.2 rfl⟩

/-! ## Claim C6: reconnection with a fixed delay -/

theorem loop_no_exit (running errored : ℕ → Bool)
    (hall : ∀ j, running j = true) :
    ∀ fuel i, Client.LoopEvent.exited ∉
      Client.tts_client_loop running errored fuel i := by
  intro fuel
  induction fuel with
  | zero => intro i; simp [Client.tts_client_loop]
  | succ n ih =>
    intro i
    unfold Client.tts_client_loop
    rw [if_pos (hall i)]
    intro hmem
    rcases List.mem_cons.mp hmem with h | h
    · exact Client.LoopEvent.noConfusion h
    · by_cases he : errored i = true
      · rw [if_pos he] at h
        rcases List.mem_cons.mp h with h2 | h2
        · exact Client.LoopEvent.noConfusion h2
        · exact ih (i + 1) h2
      · rw [if_neg he] at h
        exact ih (i + 1) h

/-- Claim C6: the reconnect delay is the fixed 5 seconds; when running is
false at the loop head the loop exits; when running is true and the session
ends with a connection error or close, the loop sleeps exactly
reconnect_delay seconds and then retries; and while running stays true the
loop never exits, repeating indefinitely. -/
theorem reconnect_fixed_delay (running errored : ℕ → Bool) (fuel i : ℕ) :
    Client.reconnect_delay = 5 ∧
    (running i = false →
      Client.tts_client_loop running errored (fuel + 1) i =
        [Client.LoopEvent.exited]) ∧
    (running i = true → errored i = true →
      Client.tts_client_loop running errored (fuel + 1) i =
        Client.LoopEvent.attempt i ::
          Client.LoopEvent.slept Client.reconnect_delay ::
            Client.tts_client_loop running errored fuel (i + 1)) ∧
    ((∀ j, running j = true) →
      Client.LoopEvent.exited ∉
        Client.tts_client_loop running errored fuel i) := by
  refine ⟨rfl, ?_, ?_, fun hall => loop_no_exit running errored hall fuel i⟩
  · intro h
    simp [Client.tts_client_loop, h]
  · intro h1 h2
    simp [Client.tts_client_loop, h1, h2]

/-- Witness for reconnect_fixed_delay: with running cleared after the first
iteration and an erroring session, the loop attempts, sleeps the fixed delay,
retries, and then exits. -/
theorem reconnect_fixed_delay_witness :
    Client.tts_client_loop Client.stopAfterOne Client.alwaysTrue 2 0 =
      Client.LoopEvent.attempt 0 ::
        Client.LoopEvent.slept Client.reconnect_delay ::
          Client.tts_client_loop Client.stopAfterOne Client.alwaysTrue 1 1 ∧
    Client.tts_client_loop Client.stopAfterOne Client.alwaysTrue 1 1 =
      [Client.LoopEvent.exited] :=
  ⟨(reconnect_fixed_delay Client.stopAfterOne Client.alwaysTrue 1 0).2.2.1
      rfl rfl,
   (reconnect_fixed_delay Client.stopAfterOne Client.alwaysTrue 0 1).2.1 rfl⟩

/-! ## Claim C4: sensitivity coupling to the playback state -/

/-- Claim C4 counterexample: the claim asserts that in every iteration of the
VAD worker the classification uses a less sensitive threshold when playback is
active and a more sensitive one when it is inactive; the webrtcvad client
classifies every frame with the one classifier built from the fixed
aggressiveness mode 3, so the classification parameter in effect is the same
constant whether playback is active or not, refuting the claim for that
worker. -/
theorem webrtc_mode_ignores_playback :
    Client.effectiveVadMode true = 3 ∧ Client.effectiveVadMode false = 3 :=
  ⟨rfl, rfl⟩

/-- Claim C4 (amended): in every iteration of the Silero client VAD worker the
playback-active flag is only read, never written, and whenever a window is
classified the threshold used is 0.85 (less sensitive) with playback active
and 0.5 (more sensitive) without; the webrtcvad client worker instead uses the
fixed aggressiveness mode 3 regardless of playback state. -/
theorem silero_threshold_coupling (classify : ℚ → List Int → Bool)
    (frame : List Int) (s : Silero.WorkerState) :
    (Silero.vad_worker_iter classify frame s).1.playback_active
        = s.playback_active ∧
    (Silero.required_samples ≤ (s.buffer ++ frame).length →
      (Silero.vad_worker_iter classify frame s).2 =
        some (Silero.effective_threshold s.playback_active)) ∧
    Silero.effective_threshold true = 0.85 ∧
    Silero.effective_threshold false = 0.5 ∧
    (0.5 : ℚ) < 0.85 ∧
    (∀ b : Bool, Client.effectiveVadMode b = Client.vad_mode) := by
  refine ⟨?_, ?_, rfl, rfl, by norm_num, fun b => rfl⟩
  · by_cases h : Silero.required_samples ≤ s.buffer.length + frame.length
    · simp [Silero.vad_worker_iter, h]
    · simp [Silero.vad_worker_iter, h]
  · intro h
    rw [List.length_append] at h
    simp [Silero.vad_worker_iter, h]

/-- Witness for silero_threshold_coupling at a full window during playback. -/
theorem silero_threshold_coupling_witness :
    (Silero.vad_worker_iter Silero.classifyAlways Silero.fullFrame
      Silero.wPlaying).1.playback_active
        = Silero.wPlaying.playback_active ∧
    (Silero.vad_worker_iter Silero.classifyAlways Silero.fullFrame
      Silero.wPlaying).2 =
        some (Silero.effective_threshold Silero.wPlaying.playback_active) :=
  ⟨(silero_threshold_coupling Silero.classifyAlways Silero.fullFrame
      Silero.wPlaying).1,
   (silero_threshold_coupling Silero.classifyAlways Silero.fullFrame
      Silero.wPlaying).2.1 (by simp [Silero.wPlaying, Silero.fullFrame])⟩

/-! ## Claims C5 and C7: server reply discipline -/

theorem encodeWav_ne_nil (samples : List Int) (sr : ℕ) :
    Server.encodeWav samples sr ≠ [] := by
  simp [Server.encodeWav, Server.wavHeader]

/-- Claim C5: the server produces exactly one reply per inbound message, in
order (so each reply is sent before the next message is handled), and each
reply is either the non-empty encoded waveform of a successful synthesis or
the empty failure sentinel, never both. -/
theorem server_one_reply_per_message
    (synth : Utterance → Option (List (List Int))) (msgs : List Utterance) :
    (Server.tts_handler synth msgs).length = msgs.length ∧
    (∀ i : ℕ, (Server.tts_handler synth msgs).get? i =
      (msgs.get? i).map (Server.handle_message synth)) ∧
    (∀ msg : Utterance,
      (∃ c cs, synth msg = some (c :: cs) ∧
        Server.handle_message synth msg =
          Server.encodeWav ((c :: cs).flatten) Server.wire_sample_rate ∧
        Server.handle_message synth msg ≠ []) ∨
      Server.handle_message synth msg = []) := by
  refine ⟨by simp [Server.tts_handler], ?_, ?_⟩
  · intro i
    simp [Server.tts_handler, List.get?_eq_getElem?, List.getElem?_map]
  · intro msg
    rcases hs : synth msg with _ | chunks
    · right; simp [Server.handle_message, hs]
    · rcases chunks with _ | ⟨c, cs⟩
      · right; simp [Server.handle_message, hs]
      · left
        have hm : Server.handle_message synth msg =
            Server.encodeWav ((c :: cs).flatten) Server.wire_sample_rate := by
          simp [Server.handle_message, hs]
        exact ⟨c, cs, rfl, hm, hm ▸ encodeWav_ne_nil _ _⟩

/-- Claim C7: when synthesis raises for a request (the engine fails, or the
chunk concatenation raises on an empty chunk list), the server answers that
request with the zero-length sentinel on the same connection and goes on to
serve the subsequent messages of the connection. -/
theorem failure_sentinel_keeps_connection
    (synth : Utterance → Option (List (List Int))) (msg : Utterance)
    (rest : List Utterance)
    (h : synth msg = none ∨ synth msg = some []) :
    Server.tts_handler synth (msg :: rest) =
      [] :: Server.tts_handler synth rest := by
  rcases h with h | h <;>
    simp [Server.tts_handler, Server.handle_message, h]

/-- Witness for failure_sentinel_keeps_connection with the always-failing
synthesis capability. -/
theorem failure_sentinel_keeps_connection_witness :
    Server.tts_handler Server.synthFail [0, 1] =
      [] :: Server.tts_handler Server.synthFail [1] :=
  failure_sentinel_keeps_connection Server.synthFail 0 [1] (Or.inl rfl)

end VadTTS
